import Mathlib

/-!
Shallow embedding of the staged SD card bring-up example
(src/boards/adafruit-feather-rp2040/examples/adafruit_feather_spi_sd_card.rs).

The pulse encoder (blink_signals, blink_signals_loop) is modelled as a
transcript of pin and delay events together with an interval interpretation.
The stage sequencer (main) is modelled as a function from an abstract storage
environment to the emitted acknowledgment signals, the terminal behaviour and
the resulting content of the record log.txt.
-/

/-! ## Blink code constants (source lines 133-139) -/

def BLINK_OK_LONG : List Nat := [8]

def BLINK_OK_SHORT_LONG : List Nat := [1, 0, 6, 0]

def BLINK_OK_SHORT_SHORT_LONG : List Nat := [1, 0, 1, 0, 6, 0]

def BLINK_ERR_3_SHORT : List Nat := [1, 0, 1, 0, 1, 0]

def BLINK_ERR_4_SHORT : List Nat := [1, 0, 1, 0, 1, 0, 1, 0]

def BLINK_ERR_5_SHORT : List Nat := [1, 0, 1, 0, 1, 0, 1, 0, 1, 0]

def BLINK_ERR_6_SHORT : List Nat := [1, 0, 1, 0, 1, 0, 1, 0, 1, 0, 1, 0]

/-! ## Pulse encoder (source lines 141-174) -/

/-- An observable action of the pulse encoder: setting the LED pin level or a
call to delay_ms. -/
inductive Ev where
  | setPin (level : Bool)
  | delayMs (ms : Nat)
deriving DecidableEq

/-- Event transcript of one call of blink_signals: for each symbol the pin is
set high exactly when the symbol is nonzero, then delay_ms 100 is called
(if bit then bit else 1) times; afterwards the pin is forced low and
delay_ms 500 is called once. -/
def blink_signals (sig : List Nat) : List Ev :=
  ((sig.map fun bit =>
      Ev.setPin (bit != 0) ::
        List.replicate (if bit > 0 then bit else 1) (Ev.delayMs 100)).flatten)
  ++ [Ev.setPin false, Ev.delayMs 500]

/-- Trace of blink_signals_loop: the loop body renders the sequence one-shot
and then calls delay_ms 1000; the loop has no exit, so the transcript of the
n-th iteration is the same for every n. -/
def blink_signals_loop (sig : List Nat) : Nat → List Ev :=
  fun _ => blink_signals sig ++ [Ev.delayMs 1000]

/-- Interpret an event transcript as a list of level intervals, carrying the
current pin level: each delay contributes one interval held at the level the
pin currently has. -/
def evIntervals : List Ev → Bool → List (Bool × Nat)
  | [], _ => []
  | Ev.setPin b :: rest, _ => evIntervals rest b
  | Ev.delayMs n :: rest, cur => (cur, n) :: evIntervals rest cur

lemma evIntervals_replicate_delay (n d : Nat) (rest : List Ev) (cur : Bool) :
    evIntervals (List.replicate n (Ev.delayMs d) ++ rest) cur =
      List.replicate n (cur, d) ++ evIntervals rest cur := by
  induction n with
  | zero => rfl
  | succ n ih => simp [List.replicate_succ, evIntervals, ih]

lemma if_pos_eq_max (bit : Nat) : (if bit > 0 then bit else 1) = max bit 1 := by
  rcases Nat.eq_zero_or_pos bit with h | h
  · subst h; simp
  · rw [if_pos h, Nat.max_eq_left h]

/-- C3: rendering a symbol sequence one-shot yields, in order, for each symbol
max(symbol, 1) quanta of 100 ms held at level high iff the symbol is nonzero,
followed by a single 500 ms interval held low, whatever level the pin had on
entry. -/
theorem C3_blink_signals_intervals (sig : List Nat) (l0 : Bool) :
    evIntervals (blink_signals sig) l0 =
      ((sig.map fun bit => List.replicate (max bit 1) ((bit != 0), 100)).flatten)
        ++ [(false, 500)] := by
  induction sig generalizing l0 with
  | nil => rfl
  | cons bit rest ih =>
      have hshape : blink_signals (bit :: rest) =
          Ev.setPin (bit != 0) ::
            (List.replicate (if bit > 0 then bit else 1) (Ev.delayMs 100) ++
              blink_signals rest) := by
        simp [blink_signals]
      rw [hshape]
      show evIntervals
          (List.replicate (if bit > 0 then bit else 1) (Ev.delayMs 100) ++
            blink_signals rest) (bit != 0) = _
      rw [evIntervals_replicate_delay, ih, if_pos_eq_max]
      simp

/-! ## The read stage (source lines 302-328)

The record is read 32 bytes at a time while the file is not at end of record.
Each read fills a zero initialised 32 byte buffer with the next chunk and
returns the number of bytes read; the printing loop then pads that count up
to the buffer length before the marker test runs, so the test sees len = 32
for every chunk.  A failing read is unwrapped, which aborts the program. -/

/-- Flag update performed after one 32 byte read: buffer is the chunk zero
padded to 32 bytes, len0 the raw read count and len the count after the
printing loop has padded it to the buffer length; the flag becomes true when
len exceeds 2 and the buffer starts with byte 116 then byte 101 (the first
two bytes of the payload test log data). -/
def chunkFlagUpdate (flag : Bool) (chunk : List Nat) : Bool :=
  let buffer := chunk ++ List.replicate (32 - chunk.length) 0
  let len0 := chunk.length
  let len := if len0 < 32 then 32 else len0
  if 2 < len ∧ buffer.getD 0 0 = 116 ∧ buffer.getD 1 0 = 101 then true else flag

/-- The while loop of the read stage: while the record is not exhausted, read
the next chunk of at most 32 bytes and run the marker test on it.  failAt
gives the index of the read call that fails, if any; a failing read is
unwrapped by the source, aborting the run (modelled as an error result). -/
def readLoopAux (failAt : Option Nat) : List Nat → Nat → Bool → Except Unit Bool
  | [], _, flag => .ok flag
  | c :: rest, i, flag =>
    if failAt = some i then .error ()
    else
      readLoopAux failAt ((c :: rest).drop 32) (i + 1)
        (chunkFlagUpdate flag ((c :: rest).take 32))
termination_by l _ _ => l.length
decreasing_by
  simp only [List.length_drop]
  simp
  omega

/-- The read stage as a whole: opening log.txt read only succeeds exactly when
the record exists and the open does not fail; when the open fails the stage
is skipped and the flag keeps its initial value false. -/
def readStage (logTxt : Option (List Nat)) (openOk : Bool) (failAt : Option Nat) :
    Except Unit Bool :=
  match logTxt, openOk with
  | some content, true => readLoopAux failAt content 0 false
  | _, _ => .ok false

/-- The successful_read flag produced by a failure free pass over a record
with the given content. -/
def readFlag (content : List Nat) : Bool :=
  match readLoopAux none content 0 false with
  | .ok b => b
  | .error _ => false

/-- The two byte marker sits at an offset that is a multiple of the 32 byte
chunk size: byte 116 at offset 32 i and byte 101 right after it. -/
def AlignedMarker (content : List Nat) : Prop :=
  ∃ i, content[32 * i]? = some 116 ∧ content[32 * i + 1]? = some 101

/-- The two byte marker occurs somewhere in the record, at any offset. -/
def markerOccursAnywhere (content : List Nat) : Bool :=
  (List.range content.length).any fun i => (content.drop i).take 2 == [116, 101]

lemma chunkFlagUpdate_take_iff (l : List Nat) (hl : l ≠ []) (flag : Bool) :
    (chunkFlagUpdate flag (l.take 32) = true) ↔
      ((l[0]? = some 116 ∧ l[1]? = some 101) ∨ flag = true) := by
  match l, hl with
  | [c], _ =>
      show chunkFlagUpdate flag [c] = true ↔ _
      simp only [chunkFlagUpdate]
      have hb0 : (([c] : List Nat) ++
          List.replicate (32 - ([c] : List Nat).length) 0).getD 0 0 = c := rfl
      have hb1 : (([c] : List Nat) ++
          List.replicate (32 - ([c] : List Nat).length) 0).getD 1 0 = 0 := rfl
      rw [hb0, hb1]
      simp
  | c :: d :: rest, _ =>
      have htake : (c :: d :: rest).take 32 = c :: d :: rest.take 30 := rfl
      rw [htake]
      simp only [chunkFlagUpdate]
      have hb0 : ((c :: d :: rest.take 30) ++
          List.replicate (32 - (c :: d :: rest.take 30).length) 0).getD 0 0 = c := rfl
      have hb1 : ((c :: d :: rest.take 30) ++
          List.replicate (32 - (c :: d :: rest.take 30).length) 0).getD 1 0 = d := rfl
      rw [hb0, hb1]
      have hlen : (2:Nat) < if (c :: d :: rest.take 30).length < 32 then 32
          else (c :: d :: rest.take 30).length := by
        split
        · norm_num
        · rename_i h
          omega
      constructor
      · intro h
        by_cases hcd : c = 116 ∧ d = 101
        · exact Or.inl ⟨by simp [hcd.1], by simp [hcd.2]⟩
        · right
          rw [if_neg (by tauto)] at h
          exact h
      · rintro (⟨h1, h2⟩ | h)
        · rw [if_pos ⟨hlen, by simpa using h1, by simpa using h2⟩]
        · split <;> simp [h]

lemma alignedMarker_cons (l : List Nat) :
    AlignedMarker l ↔
      ((l[0]? = some 116 ∧ l[1]? = some 101) ∨ AlignedMarker (l.drop 32)) := by
  constructor
  · rintro ⟨i, h1, h2⟩
    cases i with
    | zero => exact Or.inl ⟨by simpa using h1, by simpa using h2⟩
    | succ k =>
        refine Or.inr ⟨k, ?_, ?_⟩
        · rw [List.getElem?_drop]
          have : 32 + 32 * k = 32 * (k + 1) := by ring
          rw [this]
          exact h1
        · rw [List.getElem?_drop]
          have : 32 + (32 * k + 1) = 32 * (k + 1) + 1 := by ring
          rw [this]
          exact h2
  · rintro (⟨h1, h2⟩ | ⟨k, h1, h2⟩)
    · exact ⟨0, by simpa using h1, by simpa using h2⟩
    · refine ⟨k + 1, ?_, ?_⟩
      · rw [List.getElem?_drop] at h1
        have : 32 + 32 * k = 32 * (k + 1) := by ring
        rwa [this] at h1
      · rw [List.getElem?_drop] at h2
        have : 32 + (32 * k + 1) = 32 * (k + 1) + 1 := by ring
        rwa [this] at h2

lemma readLoopAux_none_spec :
    ∀ (n : Nat) (content : List Nat), content.length ≤ n →
    ∀ (i : Nat) (flag : Bool),
    ∃ b, readLoopAux none content i flag = Except.ok b ∧
      (b = true ↔ (flag = true ∨ AlignedMarker content)) := by
  intro n
  induction n with
  | zero =>
      intro content hc i flag
      have hnil : content = [] := List.length_eq_zero.mp (Nat.le_zero.mp hc)
      subst hnil
      exact ⟨flag, by simp [readLoopAux], by simp [AlignedMarker]⟩
  | succ n ih =>
      intro content hc i flag
      match content with
      | [] => exact ⟨flag, by simp [readLoopAux], by simp [AlignedMarker]⟩
      | c :: rest =>
          have hstep : readLoopAux none (c :: rest) i flag =
              readLoopAux none ((c :: rest).drop 32) (i + 1)
                (chunkFlagUpdate flag ((c :: rest).take 32)) := by
            rw [readLoopAux]
            simp
          have hlen : ((c :: rest).drop 32).length ≤ n := by
            simp only [List.length_drop, List.length_cons] at *
            omega
          obtain ⟨b, hb, hiff⟩ := ih ((c :: rest).drop 32) hlen (i + 1)
            (chunkFlagUpdate flag ((c :: rest).take 32))
          refine ⟨b, hstep.trans hb, ?_⟩
          rw [hiff, alignedMarker_cons (c :: rest)]
          have hcf := chunkFlagUpdate_take_iff (c :: rest) (by simp) flag
          constructor
          · rintro (h | h)
            · rcases hcf.mp h with h2 | h2
              · exact Or.inr (Or.inl h2)
              · exact Or.inl h2
            · exact Or.inr (Or.inr h)
          · rintro (h | h | h)
            · exact Or.inl (hcf.mpr (Or.inr h))
            · exact Or.inl (hcf.mpr (Or.inl h))
            · exact Or.inr h

lemma readFlag_eq (content : List Nat) (b : Bool)
    (hb : readLoopAux none content 0 false = .ok b) : readFlag content = b := by
  rw [readFlag, hb]

lemma readStage_some_eq (content : List Nat) :
    readStage (some content) true none = .ok (readFlag content) := by
  obtain ⟨b, hb, _⟩ :=
    readLoopAux_none_spec content.length content le_rfl 0 false
  rw [readFlag_eq content b hb]
  exact hb

lemma readFlag_iff (content : List Nat) :
    readFlag content = true ↔ AlignedMarker content := by
  obtain ⟨b, hb, hiff⟩ :=
    readLoopAux_none_spec content.length content le_rfl 0 false
  rw [readFlag, hb]
  simpa using hiff

/-! ## The stage sequencer (source lines 176-363) -/

/-- Abstract result environment for one power cycle: the outcome of each
fallible external operation and the content of log.txt (none when the record
does not exist). -/
structure Storage where
  numBytesRes : Except Unit Nat
  volumeRes : Except Unit Unit
  rootDirRes : Except Unit Unit
  iterRes : Except Unit Unit
  logTxt : Option (List Nat)
  readOpenOk : Bool
  readFailAt : Option Nat
  writeOpenRes : Except Unit Unit
  writeRes : Except Unit Unit

/-- Terminal behaviour of a run: an unwrap aborted the program, a stage error
entered blink_signals_loop with the given sequence, or the pipeline completed
and entered the final loop with the given successful_read flag. -/
inductive Outcome where
  | panicked
  | errLoop (sig : List Nat)
  | okLoop (successfulRead : Bool)
deriving DecidableEq

/-- Result of one power cycle: the one shot signals emitted before the
terminal state, the terminal state, and the content of log.txt afterwards. -/
structure RunResult where
  acks : List (List Nat)
  outcome : Outcome
  logTxtAfter : Option (List Nat)
deriving DecidableEq

/-- The fixed payload written to log.txt, the bytes of test log data. -/
def PAYLOAD : List Nat := [116, 101, 115, 116, 32, 108, 111, 103, 32, 100, 97, 116, 97]

/-- The write stage (source lines 332-343): open log.txt with create or
truncate; on failure enter the six short pulse loop; otherwise truncate the
record, write the payload and unwrap the result, aborting on a write error. -/
def writeStage (s : Storage) (successful_read : Bool) (acks : List (List Nat)) :
    RunResult :=
  match s.writeOpenRes with
  | .error _ => ⟨acks, .errLoop BLINK_ERR_6_SHORT, s.logTxt⟩
  | .ok _ =>
    match s.writeRes with
    | .error _ => ⟨acks, .panicked, some []⟩
    | .ok _ =>
      ⟨acks ++ [BLINK_OK_LONG],
       .okLoop successful_read,
       some PAYLOAD⟩

/-- The staged pipeline of main: an initial long acknowledgment, then the
capacity query, volume open, root directory open, directory iteration, read
stage and write stage, each successful stage followed by a long
acknowledgment, each failing stage among capacity, volume, root directory and
record open entering its error loop, and the iteration and read unwraps
aborting on failure. -/
def mainRun (s : Storage) : RunResult :=
  let acks0 := [BLINK_OK_LONG]
  match s.numBytesRes with
  | .error _ => ⟨acks0, .errLoop BLINK_ERR_3_SHORT, s.logTxt⟩
  | .ok _ =>
  let acks1 := acks0 ++ [BLINK_OK_LONG]
  match s.volumeRes with
  | .error _ => ⟨acks1, .errLoop BLINK_ERR_4_SHORT, s.logTxt⟩
  | .ok _ =>
  let acks2 := acks1 ++ [BLINK_OK_LONG]
  match s.rootDirRes with
  | .error _ => ⟨acks2, .errLoop BLINK_ERR_5_SHORT, s.logTxt⟩
  | .ok _ =>
  let acks3 := acks2 ++ [BLINK_OK_LONG]
  match s.iterRes with
  | .error _ => ⟨acks3, .panicked, s.logTxt⟩
  | .ok _ =>
  let acks4 := acks3 ++ [BLINK_OK_LONG]
  match readStage s.logTxt s.readOpenOk s.readFailAt with
  | .error _ => ⟨acks4, .panicked, s.logTxt⟩
  | .ok successful_read =>
  let acks5 := acks4 ++ [BLINK_OK_LONG]
  writeStage s successful_read acks5

/-- Trace of the terminal state, one transcript per iteration: the error loop
repeats its sequence with a 1000 ms pause, the final loop checks the flag on
every iteration and renders the short short long or the short long pattern
accordingly with the same pause; an aborted run emits nothing further. -/
def outcomeTrace : Outcome → Nat → List Ev
  | .panicked, _ => []
  | .errLoop sig, n => blink_signals_loop sig n
  | .okLoop successful_read, _ =>
    (if successful_read then blink_signals BLINK_OK_SHORT_SHORT_LONG
     else blink_signals BLINK_OK_SHORT_LONG) ++ [Ev.delayMs 1000]

/-- An environment in which every external operation succeeds, with the given
record content. -/
def okStorage (logTxt : Option (List Nat)) : Storage :=
  { numBytesRes := .ok 0, volumeRes := .ok (), rootDirRes := .ok (),
    iterRes := .ok (), logTxt := logTxt, readOpenOk := true, readFailAt := none,
    writeOpenRes := .ok (), writeRes := .ok () }

/-- Number of short pulses of a symbol sequence: the count of unit length
high pulses, i.e. of symbols equal to 1. -/
def shortPulseCount (sig : List Nat) : Nat := sig.count 1

/-! ## Claims -/

/-- C9: the four stage error sequences are pairwise distinct as sequences and
their total short pulse counts are 3, 4, 5 and 6, strictly increasing in
stage order. -/
theorem C9_error_sequences_distinct_increasing :
    (BLINK_ERR_3_SHORT ≠ BLINK_ERR_4_SHORT ∧ BLINK_ERR_3_SHORT ≠ BLINK_ERR_5_SHORT ∧
     BLINK_ERR_3_SHORT ≠ BLINK_ERR_6_SHORT ∧ BLINK_ERR_4_SHORT ≠ BLINK_ERR_5_SHORT ∧
     BLINK_ERR_4_SHORT ≠ BLINK_ERR_6_SHORT ∧ BLINK_ERR_5_SHORT ≠ BLINK_ERR_6_SHORT) ∧
    (shortPulseCount BLINK_ERR_3_SHORT = 3 ∧ shortPulseCount BLINK_ERR_4_SHORT = 4 ∧
     shortPulseCount BLINK_ERR_5_SHORT = 5 ∧ shortPulseCount BLINK_ERR_6_SHORT = 6) ∧
    (shortPulseCount BLINK_ERR_3_SHORT < shortPulseCount BLINK_ERR_4_SHORT ∧
     shortPulseCount BLINK_ERR_4_SHORT < shortPulseCount BLINK_ERR_5_SHORT ∧
     shortPulseCount BLINK_ERR_5_SHORT < shortPulseCount BLINK_ERR_6_SHORT) := by
  decide

/-- C10: the successful_read flag becomes true exactly when some 32 byte read
chunk of the record starts with byte 116 then byte 101, i.e. when the marker
sits at an offset that is a multiple of 32; in particular a marker at any
other offset, including one spanning a chunk boundary, never sets the flag. -/
theorem C10_flag_iff_aligned_chunk (content : List Nat) :
    (readFlag content = true ↔ AlignedMarker content) ∧
    (¬ AlignedMarker content → readFlag content = false) := by
  refine ⟨readFlag_iff content, ?_⟩
  intro h
  rcases Bool.eq_false_or_eq_true (readFlag content) with hb | hb
  · exact absurd ((readFlag_iff content).mp hb) h
  · exact hb

/-- Witness for C10 at the payload itself: the record written by a prior run
starts with the marker at the chunk aligned offset 0, so the flag is set. -/
theorem C10_witness : readFlag PAYLOAD = true :=
  (C10_flag_iff_aligned_chunk PAYLOAD).1.mpr ⟨0, rfl, rfl⟩

/-- C2: when the capacity query, the volume open, the root directory open or
the record open with create or truncate fails, the run ends in the repeating
error loop with three, four, five or six short pulses respectively, the
record is left untouched, no later stage result is consulted, and the error
loop renders the same transcript at every iteration. -/
theorem C2_stage_failures_terminal (s : Storage) :
    (s.numBytesRes = .error () →
        mainRun s = ⟨[BLINK_OK_LONG], .errLoop BLINK_ERR_3_SHORT, s.logTxt⟩) ∧
    (∀ nb, s.numBytesRes = .ok nb → s.volumeRes = .error () →
        mainRun s = ⟨[BLINK_OK_LONG, BLINK_OK_LONG],
          .errLoop BLINK_ERR_4_SHORT, s.logTxt⟩) ∧
    (∀ nb, s.numBytesRes = .ok nb → s.volumeRes = .ok () → s.rootDirRes = .error () →
        mainRun s = ⟨[BLINK_OK_LONG, BLINK_OK_LONG, BLINK_OK_LONG],
          .errLoop BLINK_ERR_5_SHORT, s.logTxt⟩) ∧
    (∀ nb flag, s.numBytesRes = .ok nb → s.volumeRes = .ok () → s.rootDirRes = .ok () →
        s.iterRes = .ok () →
        readStage s.logTxt s.readOpenOk s.readFailAt = .ok flag →
        s.writeOpenRes = .error () →
        mainRun s = ⟨[BLINK_OK_LONG, BLINK_OK_LONG, BLINK_OK_LONG, BLINK_OK_LONG,
          BLINK_OK_LONG, BLINK_OK_LONG], .errLoop BLINK_ERR_6_SHORT, s.logTxt⟩) ∧
    (∀ sig n, outcomeTrace (.errLoop sig) n = blink_signals sig ++ [Ev.delayMs 1000]) := by
  refine ⟨?_, ?_, ?_, ?_, ?_⟩
  · intro h
    simp [mainRun, h]
  · intro nb h1 h2
    simp [mainRun, h1, h2]
  · intro nb h1 h2 h3
    simp [mainRun, h1, h2, h3]
  · intro nb flag h1 h2 h3 h4 h5 h6
    simp [mainRun, writeStage, h1, h2, h3, h4, h5, h6]
  · intro sig n
    rfl

/-- Witness for C2: one concrete run per failing stage, with every later
operation set up to succeed. -/
theorem C2_witness :
    mainRun ⟨.error (), .ok (), .ok (), .ok (), none, true, none, .ok (), .ok ()⟩ =
      ⟨[BLINK_OK_LONG], .errLoop BLINK_ERR_3_SHORT, none⟩ ∧
    mainRun ⟨.ok 0, .error (), .ok (), .ok (), none, true, none, .ok (), .ok ()⟩ =
      ⟨[BLINK_OK_LONG, BLINK_OK_LONG], .errLoop BLINK_ERR_4_SHORT, none⟩ ∧
    mainRun ⟨.ok 0, .ok (), .error (), .ok (), none, true, none, .ok (), .ok ()⟩ =
      ⟨[BLINK_OK_LONG, BLINK_OK_LONG, BLINK_OK_LONG],
        .errLoop BLINK_ERR_5_SHORT, none⟩ ∧
    mainRun ⟨.ok 0, .ok (), .ok (), .ok (), none, true, none, .error (), .ok ()⟩ =
      ⟨[BLINK_OK_LONG, BLINK_OK_LONG, BLINK_OK_LONG, BLINK_OK_LONG, BLINK_OK_LONG,
        BLINK_OK_LONG], .errLoop BLINK_ERR_6_SHORT, none⟩ :=
  ⟨(C2_stage_failures_terminal _).1 rfl,
   (C2_stage_failures_terminal _).2.1 0 rfl rfl,
   (C2_stage_failures_terminal _).2.2.1 0 rfl rfl rfl,
   (C2_stage_failures_terminal _).2.2.2.1 0 false rfl rfl rfl rfl rfl rfl⟩

/-- C5: once the write stage has completed, the run enters the terminal loop
with the flag computed by the read stage; every iteration of that loop
renders the short short long pattern when the flag is true and the short long
pattern when it is false, so the signal is chosen once and never changes. -/
theorem C5_terminal_choice (s : Storage) (nb : Nat) (flag : Bool)
    (h1 : s.numBytesRes = .ok nb) (h2 : s.volumeRes = .ok ())
    (h3 : s.rootDirRes = .ok ()) (h4 : s.iterRes = .ok ())
    (h5 : readStage s.logTxt s.readOpenOk s.readFailAt = .ok flag)
    (h6 : s.writeOpenRes = .ok ()) (h7 : s.writeRes = .ok ()) :
    (mainRun s).outcome = .okLoop flag ∧
    (flag = true → ∀ n, outcomeTrace (mainRun s).outcome n =
        blink_signals BLINK_OK_SHORT_SHORT_LONG ++ [Ev.delayMs 1000]) ∧
    (flag = false → ∀ n, outcomeTrace (mainRun s).outcome n =
        blink_signals BLINK_OK_SHORT_LONG ++ [Ev.delayMs 1000]) := by
  have hm : (mainRun s).outcome = .okLoop flag := by
    simp [mainRun, writeStage, h1, h2, h3, h4, h5, h6, h7]
  refine ⟨hm, ?_, ?_⟩
  · intro hf n
    rw [hm, hf]
    rfl
  · intro hf n
    rw [hm, hf]
    rfl

/-- Witness for C5: the all success run over an absent record enters the
terminal loop with the flag false. -/
theorem C5_witness :
    (mainRun (okStorage none)).outcome = .okLoop false ∧
    (false = true → ∀ n, outcomeTrace (mainRun (okStorage none)).outcome n =
        blink_signals BLINK_OK_SHORT_SHORT_LONG ++ [Ev.delayMs 1000]) ∧
    (false = false → ∀ n, outcomeTrace (mainRun (okStorage none)).outcome n =
        blink_signals BLINK_OK_SHORT_LONG ++ [Ev.delayMs 1000]) :=
  C5_terminal_choice (okStorage none) 0 false rfl rfl rfl rfl rfl rfl rfl

/-- C7: over carried over storage, a first cycle that starts with no record
and succeeds end to end ends in the short long terminal loop, and a second
cycle over the record it wrote ends in the short short long terminal loop. -/
theorem C7_two_cycles (s1 s2 : Storage) (nb1 nb2 : Nat)
    (h11 : s1.numBytesRes = .ok nb1) (h12 : s1.volumeRes = .ok ())
    (h13 : s1.rootDirRes = .ok ()) (h14 : s1.iterRes = .ok ())
    (h15 : s1.logTxt = none)
    (h16 : s1.writeOpenRes = .ok ()) (h17 : s1.writeRes = .ok ())
    (h21 : s2.numBytesRes = .ok nb2) (h22 : s2.volumeRes = .ok ())
    (h23 : s2.rootDirRes = .ok ()) (h24 : s2.iterRes = .ok ())
    (h25 : s2.logTxt = (mainRun s1).logTxtAfter)
    (h26 : s2.readOpenOk = true) (h27 : s2.readFailAt = none)
    (h28 : s2.writeOpenRes = .ok ()) (h29 : s2.writeRes = .ok ()) :
    (mainRun s1).outcome = .okLoop false ∧ (mainRun s2).outcome = .okLoop true := by
  have hr1 : readStage s1.logTxt s1.readOpenOk s1.readFailAt = .ok false := by
    rw [h15]
    simp [readStage]
  have hm1o : (mainRun s1).outcome = .okLoop false := by
    simp [mainRun, writeStage, h11, h12, h13, h14, hr1, h16, h17]
  have hm1l : (mainRun s1).logTxtAfter = some PAYLOAD := by
    simp [mainRun, writeStage, h11, h12, h13, h14, hr1, h16, h17]
  have hAM : AlignedMarker PAYLOAD := ⟨0, rfl, rfl⟩
  have hflag : readFlag PAYLOAD = true := (readFlag_iff PAYLOAD).mpr hAM
  have hr2 : readStage s2.logTxt s2.readOpenOk s2.readFailAt = .ok true := by
    rw [h25, hm1l, h26, h27, readStage_some_eq, hflag]
  have hm2o : (mainRun s2).outcome = .okLoop true := by
    simp [mainRun, writeStage, h21, h22, h23, h24, hr2, h28, h29]
  exact ⟨hm1o, hm2o⟩

/-- Witness for C7: two concrete all success cycles, the second over the
record content left behind by the first. -/
theorem C7_witness :
    (mainRun (okStorage none)).outcome = .okLoop false ∧
    (mainRun (okStorage ((mainRun (okStorage none)).logTxtAfter))).outcome =
      .okLoop true :=
  C7_two_cycles (okStorage none) (okStorage ((mainRun (okStorage none)).logTxtAfter))
    0 0 rfl rfl rfl rfl rfl rfl rfl rfl rfl rfl rfl rfl rfl rfl rfl rfl

/-- C8 counterexample: in the all success run over an absent record the
sequencer emits seven long pulse acknowledgments, not one per the four
stages of the claim, i.e. not four. -/
theorem C8_counterexample :
    mainRun (okStorage none) =
      ⟨[BLINK_OK_LONG, BLINK_OK_LONG, BLINK_OK_LONG, BLINK_OK_LONG, BLINK_OK_LONG,
        BLINK_OK_LONG, BLINK_OK_LONG], .okLoop false, some PAYLOAD⟩ ∧
    [BLINK_OK_LONG, BLINK_OK_LONG, BLINK_OK_LONG, BLINK_OK_LONG, BLINK_OK_LONG,
        BLINK_OK_LONG, BLINK_OK_LONG] ≠
      [BLINK_OK_LONG, BLINK_OK_LONG, BLINK_OK_LONG, BLINK_OK_LONG] := by
  constructor
  · simp [mainRun, writeStage, okStorage, readStage]
  · decide

/-- C8 as amended: in a run where every stage succeeds and no record exists,
the sequencer emits seven long pulse acknowledgments, one before the first
stage and one after each of the six stages, and then enters the permanent
short long terminal loop. -/
theorem C8_amended_seven_acks (s : Storage) (nb : Nat)
    (h1 : s.numBytesRes = .ok nb) (h2 : s.volumeRes = .ok ())
    (h3 : s.rootDirRes = .ok ()) (h4 : s.iterRes = .ok ())
    (h5 : s.logTxt = none)
    (h6 : s.writeOpenRes = .ok ()) (h7 : s.writeRes = .ok ()) :
    (mainRun s).acks = [BLINK_OK_LONG, BLINK_OK_LONG, BLINK_OK_LONG, BLINK_OK_LONG,
      BLINK_OK_LONG, BLINK_OK_LONG, BLINK_OK_LONG] ∧
    (mainRun s).outcome = .okLoop false ∧
    (∀ n, outcomeTrace (mainRun s).outcome n =
      blink_signals BLINK_OK_SHORT_LONG ++ [Ev.delayMs 1000]) := by
  have hr : readStage s.logTxt s.readOpenOk s.readFailAt = .ok false := by
    rw [h5]
    simp [readStage]
  have ha : (mainRun s).acks = [BLINK_OK_LONG, BLINK_OK_LONG, BLINK_OK_LONG,
      BLINK_OK_LONG, BLINK_OK_LONG, BLINK_OK_LONG, BLINK_OK_LONG] := by
    simp [mainRun, writeStage, h1, h2, h3, h4, hr, h6, h7]
  have ho : (mainRun s).outcome = .okLoop false := by
    simp [mainRun, writeStage, h1, h2, h3, h4, hr, h6, h7]
  exact ⟨ha, ho, fun n => by rw [ho]; rfl⟩

/-- Witness for C8 as amended, at the concrete all success environment. -/
theorem C8_amended_witness :
    (mainRun (okStorage none)).acks = [BLINK_OK_LONG, BLINK_OK_LONG, BLINK_OK_LONG,
      BLINK_OK_LONG, BLINK_OK_LONG, BLINK_OK_LONG, BLINK_OK_LONG] ∧
    (mainRun (okStorage none)).outcome = .okLoop false ∧
    (∀ n, outcomeTrace (mainRun (okStorage none)).outcome n =
      blink_signals BLINK_OK_SHORT_LONG ++ [Ev.delayMs 1000]) :=
  C8_amended_seven_acks (okStorage none) 0 rfl rfl rfl rfl rfl rfl rfl

/-- C1 counterexample: the record holding bytes 120, 116, 101 contains the
two byte marker at offset 1, yet the all success run over it ends in the
short long terminal loop, not the short short long one: an occurrence that is
not aligned to a 32 byte chunk start does not set the flag. -/
theorem C1_counterexample :
    markerOccursAnywhere [120, 116, 101] = true ∧
    (mainRun (okStorage (some [120, 116, 101]))).outcome = .okLoop false ∧
    Outcome.okLoop false ≠ Outcome.okLoop true := by
  refine ⟨by decide, ?_, by decide⟩
  have hflag : readFlag [120, 116, 101] = false := by
    simp [readFlag, readLoopAux, chunkFlagUpdate]
  have hr : readStage (some [120, 116, 101]) true none = .ok false := by
    rw [readStage_some_eq, hflag]
  simp [mainRun, writeStage, okStorage, hr]

/-- C1 as amended: in a run that reaches the read stage and completes, the
flag is set when the marker occurs at the start of a 32 byte read chunk,
i.e. at an offset that is a multiple of 32 (the final chunk included), and
the terminal signal is then the short short long pattern at every
iteration. -/
theorem C1_amended_aligned_marker (s : Storage) (nb : Nat) (content : List Nat)
    (h1 : s.numBytesRes = .ok nb) (h2 : s.volumeRes = .ok ())
    (h3 : s.rootDirRes = .ok ()) (h4 : s.iterRes = .ok ())
    (h5 : s.logTxt = some content) (h6 : s.readOpenOk = true)
    (h7 : s.readFailAt = none)
    (h8 : s.writeOpenRes = .ok ()) (h9 : s.writeRes = .ok ())
    (hm : AlignedMarker content) :
    readStage s.logTxt s.readOpenOk s.readFailAt = .ok true ∧
    (mainRun s).outcome = .okLoop true ∧
    (∀ n, outcomeTrace (mainRun s).outcome n =
      blink_signals BLINK_OK_SHORT_SHORT_LONG ++ [Ev.delayMs 1000]) := by
  have hflag : readFlag content = true := (readFlag_iff content).mpr hm
  have hr : readStage s.logTxt s.readOpenOk s.readFailAt = .ok true := by
    rw [h5, h6, h7, readStage_some_eq, hflag]
  have hout : (mainRun s).outcome = .okLoop true := by
    simp [mainRun, writeStage, h1, h2, h3, h4, hr, h8, h9]
  exact ⟨hr, hout, fun n => by rw [hout]; rfl⟩

/-- Witness for C1 as amended: the payload record carries the marker at the
chunk aligned offset 0, in its one and only (hence final) read chunk. -/
theorem C1_amended_witness :
    readStage (okStorage (some PAYLOAD)).logTxt (okStorage (some PAYLOAD)).readOpenOk
      (okStorage (some PAYLOAD)).readFailAt = .ok true ∧
    (mainRun (okStorage (some PAYLOAD))).outcome = .okLoop true ∧
    (∀ n, outcomeTrace (mainRun (okStorage (some PAYLOAD))).outcome n =
      blink_signals BLINK_OK_SHORT_SHORT_LONG ++ [Ev.delayMs 1000]) :=
  C1_amended_aligned_marker (okStorage (some PAYLOAD)) 0 PAYLOAD
    rfl rfl rfl rfl rfl rfl rfl rfl rfl ⟨0, rfl, rfl⟩

/-- C4 counterexample: when the record open with create or truncate succeeds
but the write of the payload fails, the run aborts on the unwrap; it does not
enter the six short pulse error loop. -/
theorem C4_counterexample :
    (mainRun { okStorage none with writeRes := .error () }).outcome = .panicked ∧
    Outcome.panicked ≠ .errLoop BLINK_ERR_6_SHORT := by
  constructor
  · rfl
  · decide

/-- C4 as amended: a failing record open with create or truncate enters the
repeating six short pulse error loop, while a failing write of the payload
after a successful open aborts the program instead. -/
theorem C4_amended_write_stage (s : Storage) :
    (∀ nb flag, s.numBytesRes = .ok nb → s.volumeRes = .ok () →
        s.rootDirRes = .ok () → s.iterRes = .ok () →
        readStage s.logTxt s.readOpenOk s.readFailAt = .ok flag →
        s.writeOpenRes = .error () →
        (mainRun s).outcome = .errLoop BLINK_ERR_6_SHORT ∧
        (∀ n, outcomeTrace (mainRun s).outcome n =
          blink_signals BLINK_ERR_6_SHORT ++ [Ev.delayMs 1000])) ∧
    (∀ nb flag, s.numBytesRes = .ok nb → s.volumeRes = .ok () →
        s.rootDirRes = .ok () → s.iterRes = .ok () →
        readStage s.logTxt s.readOpenOk s.readFailAt = .ok flag →
        s.writeOpenRes = .ok () → s.writeRes = .error () →
        (mainRun s).outcome = .panicked) := by
  constructor
  · intro nb flag h1 h2 h3 h4 h5 h6
    have hm : (mainRun s).outcome = .errLoop BLINK_ERR_6_SHORT := by
      simp [mainRun, writeStage, h1, h2, h3, h4, h5, h6]
    exact ⟨hm, fun n => by rw [hm]; rfl⟩
  · intro nb flag h1 h2 h3 h4 h5 h6 h7
    simp [mainRun, writeStage, h1, h2, h3, h4, h5, h6, h7]

/-- Witness for C4 as amended: a concrete run whose record open fails and a
concrete run whose write fails. -/
theorem C4_amended_witness :
    ((mainRun { okStorage none with writeOpenRes := .error () }).outcome =
        .errLoop BLINK_ERR_6_SHORT ∧
      (∀ n, outcomeTrace
          (mainRun { okStorage none with writeOpenRes := .error () }).outcome n =
        blink_signals BLINK_ERR_6_SHORT ++ [Ev.delayMs 1000])) ∧
    (mainRun { okStorage none with writeRes := .error () }).outcome = .panicked :=
  ⟨(C4_amended_write_stage { okStorage none with writeOpenRes := .error () }).1
      0 false rfl rfl rfl rfl rfl rfl,
   (C4_amended_write_stage { okStorage none with writeRes := .error () }).2
      0 false rfl rfl rfl rfl rfl rfl rfl⟩

/-- C6 counterexample: when the record exists and opens but the very first
read call fails, the unwrap aborts the run after the fifth acknowledgment; no
error signal is emitted but the pipeline does not proceed to the write stage
and never reaches a terminal loop. -/
theorem C6_counterexample :
    (mainRun { okStorage (some PAYLOAD) with readFailAt := some 0 }).outcome =
      .panicked ∧
    (mainRun { okStorage (some PAYLOAD) with readFailAt := some 0 }).acks =
      [BLINK_OK_LONG, BLINK_OK_LONG, BLINK_OK_LONG, BLINK_OK_LONG, BLINK_OK_LONG] ∧
    (∀ b, Outcome.panicked ≠ Outcome.okLoop b) := by
  have hr : readStage (some PAYLOAD) true (some 0) = .error () := by
    simp [readStage, readLoopAux, PAYLOAD]
  refine ⟨?_, ?_, by decide⟩
  · simp [mainRun, okStorage, hr]
  · simp [mainRun, okStorage, hr]

/-- C6 as amended: an absent record or a failing read only open is treated as
first run: the flag is computed as false, no error signal is emitted and the
run proceeds directly to the write stage; but a failure of an individual read
call aborts the program on the unwrap instead of proceeding. -/
theorem C6_amended_read_policy (s : Storage) (nb : Nat)
    (h1 : s.numBytesRes = .ok nb) (h2 : s.volumeRes = .ok ())
    (h3 : s.rootDirRes = .ok ()) (h4 : s.iterRes = .ok ()) :
    ((s.logTxt = none ∨ s.readOpenOk = false) →
      readStage s.logTxt s.readOpenOk s.readFailAt = .ok false ∧
      mainRun s = writeStage s false [BLINK_OK_LONG, BLINK_OK_LONG, BLINK_OK_LONG,
        BLINK_OK_LONG, BLINK_OK_LONG, BLINK_OK_LONG]) ∧
    (∀ c cs, s.logTxt = some (c :: cs) → s.readOpenOk = true →
      s.readFailAt = some 0 → (mainRun s).outcome = .panicked) := by
  constructor
  · intro h
    have hr : readStage s.logTxt s.readOpenOk s.readFailAt = .ok false := by
      rcases h with h | h
      · rw [h]
        simp [readStage]
      · rw [h]
        cases hres : s.logTxt <;> simp [readStage]
    refine ⟨hr, ?_⟩
    simp [mainRun, h1, h2, h3, h4, hr]
  · intro c cs hc ho hf
    have hr : readStage s.logTxt s.readOpenOk s.readFailAt = .error () := by
      rw [hc, ho, hf]
      simp [readStage, readLoopAux]
    simp [mainRun, h1, h2, h3, h4, hr]

/-- Witness for C6 as amended: the all success run over an absent record
reaches the write stage with the flag false. -/
theorem C6_amended_witness :
    readStage (okStorage none).logTxt (okStorage none).readOpenOk
      (okStorage none).readFailAt = .ok false ∧
    mainRun (okStorage none) = writeStage (okStorage none) false
      [BLINK_OK_LONG, BLINK_OK_LONG, BLINK_OK_LONG, BLINK_OK_LONG, BLINK_OK_LONG,
        BLINK_OK_LONG] :=
  (C6_amended_read_policy (okStorage none) 0 rfl rfl rfl rfl).1 (Or.inl rfl)
